import Mathlib

/-!
Shallow embedding of the core of the `httpcore` transport library:
the HTTP/2 connection engine (`src/httpcore/_sync/http2.py`,
`src/httpcore/_async/http2.py`) and the proxy dispatcher
(`src/httpcore/_async/http_proxy.py`).

Bytes objects are modelled as `String` (ASCII) where text content matters
and as `List Nat` where only lengths matter.  The external `h2` frame
codec is abstracted: the quantities the engine reads from it
(`local_flow_control_window`, `max_outbound_frame_size`, produced events)
are explicit inputs, and its state changes driven by `receive_events`
are supplied by an environment list (one entry per socket read).
-/

namespace Httpcore

/-! ## Flow control (HTTP/2 engine)

`wait_for_outgoing_flow` and `send_body` from both
`_sync/http2.py` (lines 174-191, 326-338) and `_async/http2.py`
(lines 136-153, 293-305); the two variants are line-for-line identical
apart from `async`/`await` keywords. -/

/-- The part of the h2 codec state the flow-control code reads for one
stream: `h2_state.local_flow_control_window(stream_id)` and
`h2_state.max_outbound_frame_size`. -/
structure H2FlowState where
  localFlow : Nat
  maxFrame : Nat
  deriving Repr, DecidableEq

/-- `min(local_flow, connection_flow)` as computed inside
`wait_for_outgoing_flow`. -/
def flowOf (s : H2FlowState) : Nat :=
  min s.localFlow s.maxFrame

/-- `wait_for_outgoing_flow(stream_id, timeout)`.

The loop `while flow == 0: receive_events(...)` is embedded by consuming
one element of `env` (the codec state after that `receive_events` call)
per iteration.  Returns `some (flow, final state, remaining env)`, or
`none` when `env` is exhausted while the flow is still zero (the real
code would stay blocked on the network). -/
def wait_for_outgoing_flow (s : H2FlowState) (env : List H2FlowState) :
    Option (Nat × H2FlowState × List H2FlowState) :=
  if flowOf s ≠ 0 then
    some (flowOf s, s, env)
  else
    match env with
    | [] => none
    | s1 :: rest => wait_for_outgoing_flow s1 rest

/-- Effect of `h2_state.send_data(stream_id, chunk)` on the stream's
outbound window: the flow-control credit shrinks by the chunk length
(the max frame size setting is unchanged). -/
def sendDataState (s : H2FlowState) (n : Nat) : H2FlowState :=
  { s with localFlow := s.localFlow - n }

/-- The inner `while data:` loop of `send_body`: repeatedly wait for
outbound flow, split off `chunk_size = min(len(data), max_flow)` bytes,
and pass them to `send_data`.  Each emitted pair records the chunk
together with the codec state at the moment `send_data` is called.
`fuel` bounds the number of iterations (the loop itself terminates
because each round sends at least one byte); `none` means fuel or `env`
ran out. -/
def sendBodyChunks :
    Nat → List Nat → H2FlowState → List H2FlowState →
    Option (List (List Nat × H2FlowState) × H2FlowState × List H2FlowState)
  | _, [], s, env => some ([], s, env)
  | 0, _ :: _, _, _ => none
  | fuel + 1, b :: bs, s, env =>
    match wait_for_outgoing_flow s env with
    | none => none
    | some (maxFlow, s1, env1) =>
      match sendBodyChunks fuel ((b :: bs).drop (min (b :: bs).length maxFlow))
          (sendDataState s1 (min (b :: bs).length maxFlow)) env1 with
      | none => none
      | some (sent, s2, env2) =>
        some (((b :: bs).take (min (b :: bs).length maxFlow), s1) :: sent, s2, env2)

/-- `send_body(stream, timeout)`: iterate the request body stream
(`for data in stream`), sending each element through the inner
chunking loop; the trailing `end_stream` call emits no DATA. -/
def send_body (fuel : Nat) :
    List (List Nat) → H2FlowState → List H2FlowState →
    Option (List (List Nat × H2FlowState) × H2FlowState × List H2FlowState)
  | [], s, env => some ([], s, env)
  | d :: ds, s, env =>
    match sendBodyChunks fuel d s env with
    | none => none
    | some (sent, s1, env1) =>
      match send_body fuel ds s1 env1 with
      | none => none
      | some (sent2, s2, env2) => some (sent ++ sent2, s2, env2)

/-! ## Request header block (HTTP/2 stream)

`send_headers` of `SyncHTTP2Stream` (lines 304-324) and
`AsyncHTTP2Stream` (lines 271-291); again identical code.  Header names
and values (Python `bytes`) are modelled as ASCII strings; both
`bytes.lower` and `Char.toLower` lowercase exactly the ASCII letters. -/

/-- The header normalization done at the top of `request` (sync line 281,
async line 249): `[(k.lower(), v) for (k, v) in headers]`. -/
def lowered_headers (headers : List (String × String)) : List (String × String) :=
  headers.map (fun kv => (kv.1.toLower, kv.2))

/-- The header list built by `send_headers` and handed to
`connection.send_headers`: the four pseudo-headers followed by the incoming
headers minus `host` and `transfer-encoding`.  `default_port` is
`{b"http": 80, b"https": 443}.get(scheme)`; the authority is
`b"%s:%d" % (hostname, port)` when `port != default_port`, else `hostname`. -/
def send_headers_block (method scheme hostname : String) (port : Nat)
    (path : String) (headers : List (String × String)) :
    List (String × String) :=
  let defaultPort : Option Nat :=
    if scheme = "http" then some 80
    else if scheme = "https" then some 443
    else none
  let authority :=
    if some port ≠ defaultPort then hostname ++ ":" ++ toString port else hostname
  [(":method", method),
   (":authority", authority),
   (":scheme", scheme),
   (":path", path)] ++
    headers.filter (fun kv => !(kv.1 == "host" || kv.1 == "transfer-encoding"))

/-- The header block a request hands to the connection: `request` lowercases
the user headers, `send_headers` prepends the pseudo-headers and filters. -/
def request_header_block (method scheme hostname : String) (port : Nat)
    (path : String) (headers : List (String × String)) :
    List (String × String) :=
  send_headers_block method scheme hostname port path (lowered_headers headers)

/-- The authority as the claim words it: `host` when the port equals the
scheme's default port (http=80, https=443), `host:port` otherwise.  Stated
from the spec for comparison with the code's construction. -/
def spec_authority (scheme hostname : String) (port : Nat) : String :=
  if (scheme = "http" ∧ port = 80) ∨ (scheme = "https" ∧ port = 443) then hostname
  else hostname ++ ":" ++ toString port

/-- The claim's description of the header block, stated from the spec's words
for comparison with `request_header_block`: the four pseudo-headers in fixed
order, then the user headers with lowercased names, excluding `host` and
`transfer-encoding`. -/
def spec_header_block (method scheme hostname : String) (port : Nat)
    (path : String) (headers : List (String × String)) :
    List (String × String) :=
  [(":method", method),
   (":authority", spec_authority scheme hostname port),
   (":scheme", scheme),
   (":path", path)] ++
    (headers.map (fun kv => (kv.1.toLower, kv.2))).filter
      (fun kv => !(kv.1 == "host" || kv.1 == "transfer-encoding"))

/-! ## Proxy dispatch (`AsyncHTTPProxy.request`, lines 49-70) -/

inductive ProxyMode
  | DEFAULT
  | FORWARD_ONLY
  | TUNNEL_ONLY
  deriving DecidableEq, Repr

inductive ProxyPath
  | forward
  | tunnel
  deriving DecidableEq, Repr

/-- The dispatch decision of `AsyncHTTPProxy.request`:
`if (self.proxy_mode == "DEFAULT" and url[0] == b"http") or
self.proxy_mode == "FORWARD_ONLY":` forward, `else:` tunnel. -/
def proxy_request_path (mode : ProxyMode) (scheme : String) : ProxyPath :=
  if (mode = ProxyMode.DEFAULT ∧ scheme = "http") ∨ mode = ProxyMode.FORWARD_ONLY then
    ProxyPath.forward
  else
    ProxyPath.tunnel

/-! ## Association lists

Python `dict`s (`self.streams`, `self.events`, `self.connections`) are
modelled as association lists with unique keys: assignment replaces the
value in place for an existing key and appends for a new one, deletion
filters the key out. -/

/-- Lookup of `d[k]` / `k in d`. -/
def assocLookup {α β : Type} [DecidableEq α] : List (α × β) → α → Option β
  | [], _ => none
  | (k1, v1) :: rest, k => if k1 = k then some v1 else assocLookup rest k

/-- `d[k] = v`. -/
def assocSet {α β : Type} [DecidableEq α] (l : List (α × β)) (k : α) (v : β) :
    List (α × β) :=
  if (assocLookup l k).isSome then
    l.map (fun kv => if kv.1 = k then (k, v) else kv)
  else
    l ++ [(k, v)]

/-- `del d[k]`. -/
def assocDelete {α β : Type} [DecidableEq α] (l : List (α × β)) (k : α) :
    List (α × β) :=
  l.filter (fun kv => !(kv.1 == k))

/-! ## HTTP/2 connection registry, state and inbound driver -/

/-- `ConnectionState` from `base.py` (referenced throughout both engines). -/
inductive ConnectionState
  | PENDING
  | READY
  | ACTIVE
  | IDLE
  | FULL
  | CLOSED
  deriving DecidableEq, Repr

/-- An `h2.events` event as `receive_events` inspects it:
`stream_id` is `getattr(event, "stream_id", 0)` (events without the
attribute carry 0); `error_code` is `some c` exactly when
`hasattr(event, "error_code")`. -/
structure H2Event where
  stream_id : Nat
  error_code : Option Nat
  deriving DecidableEq, Repr

/-- The registry-and-state part of a `SyncHTTP2Connection` /
`AsyncHTTP2Connection`: `self.streams` (stream id → stream object, the
object itself carrying its id), `self.events` (stream id → FIFO of
events), and `self.state`.  The codec and the socket live outside this
structure. -/
structure H2Connection where
  streams : List (Nat × Nat)
  events : List (Nat × List H2Event)
  state : ConnectionState
  deriving DecidableEq, Repr

/-- The registries start empty (`__init__`, sync lines 54-57). -/
def initialConnection : H2Connection :=
  { streams := [], events := [], state := ConnectionState.ACTIVE }

/-- The registry creation in `request` after a stream id is allocated
(sync lines 124-126, async lines 77-79):
`self.streams[stream_id] = h2_stream; self.events[stream_id] = []`. -/
def registerStream (c : H2Connection) (sid : Nat) : H2Connection :=
  { c with
    streams := assocSet c.streams sid sid
    events := assocSet c.events sid [] }

/-- Sync `close()` (lines 168-172): set CLOSED (and close the socket)
unless already CLOSED. -/
def close_conn (c : H2Connection) : H2Connection :=
  if c.state ≠ ConnectionState.CLOSED then { c with state := ConnectionState.CLOSED }
  else c

/-- `close_stream(stream_id)` (sync lines 257-265): delete both registry
entries; when no streams remain, ACTIVE becomes IDLE and FULL triggers
`close()`.  (The async variant, lines 228-233, deletes the same two
entries and only does the IDLE transition.) -/
def close_stream (c : H2Connection) (sid : Nat) : H2Connection :=
  let c1 := { c with
    streams := assocDelete c.streams sid
    events := assocDelete c.events sid }
  if c1.streams = [] then
    if c1.state = ConnectionState.ACTIVE then { c1 with state := ConnectionState.IDLE }
    else if c1.state = ConnectionState.FULL then close_conn c1
    else c1
  else c1

/-- `mark_as_ready()` (sync lines 91-93). -/
def mark_as_ready (c : H2Connection) : H2Connection :=
  if c.state = ConnectionState.IDLE then { c with state := ConnectionState.READY }
  else c

/-- The delivery step inside the `receive_events` loop (sync lines 218-219,
async lines 181-182): `if event_stream_id in self.events:
self.events[event_stream_id].append(event)`. -/
def deliverEvent (c : H2Connection) (e : H2Event) : H2Connection :=
  match assocLookup c.events e.stream_id with
  | some fifo => { c with events := assocSet c.events e.stream_id (fifo ++ [e]) }
  | none => c

/-- The `for event in events:` loop of `receive_events` (sync lines
212-219): raising `ProtocolError(event)` on an event with an error code is
modelled as `some "ProtocolError"` in the second component; events
delivered before the raise stay delivered. -/
def processEvents : H2Connection → List H2Event → H2Connection × Option String
  | c, [] => (c, none)
  | c, e :: rest =>
    if e.error_code.isSome then (c, some "ProtocolError")
    else processEvents (deliverEvent c e) rest

/-- `receive_events(timeout)` (sync lines 206-222, async lines 167-185):
read up to `READ_NUM_BYTES` bytes from the socket (`data` is whatever the
socket returned; a zero-byte read is `data = []`), feed them to the codec
(`feed` abstracts `h2_state.receive_data`) and process the produced
events.  The code inspects only the produced events — it never looks at
`data`'s length. -/
def receive_events (feed : List Nat → List H2Event) (c : H2Connection)
    (data : List Nat) : H2Connection × Option String :=
  processEvents c (feed data)

/-- Errors a `request` call can surface from stream admission:
httpcore's own `NewConnectionRequired` (raised by the sync variant) and
the h2 codec's `NoAvailableStreamIDError` (propagated unhandled by the
async variant). -/
inductive RequestError
  | NewConnectionRequired
  | NoAvailableStreamIDError
  deriving DecidableEq, Repr

/-- The stream-admission step of `SyncHTTP2Connection.request` (lines
105-127).  `nextId` is the outcome of
`self.h2_state.get_next_available_stream_id()`, with `none` modelling
`NoAvailableStreamIDError`.  On `none`, the state becomes FULL and
`NewConnectionRequired` is raised before any registry entry is created;
otherwise the state becomes ACTIVE and both registry entries for the new
stream are created together. -/
def request_allocate (c : H2Connection) (nextId : Option Nat) :
    H2Connection × Except RequestError Nat :=
  match nextId with
  | none =>
    ({ c with state := ConnectionState.FULL },
      Except.error RequestError.NewConnectionRequired)
  | some sid =>
    (registerStream { c with state := ConnectionState.ACTIVE } sid, Except.ok sid)

/-- The stream-admission step of `AsyncHTTP2Connection.request` (lines
69-80).  Line 74 sets the state to ACTIVE, then line 75 calls
`self.h2_state.get_next_available_stream_id()` bare — there is no
try/except around it (the async file imports neither
`NoAvailableStreamIDError` nor `NewConnectionRequired` and never mentions
FULL), so a refused id (`nextId = none`) propagates the codec's
`NoAvailableStreamIDError` unchanged, before any registry entry is
created; on success both registry entries are created together
(lines 77-79). -/
def async_request_allocate (c : H2Connection) (nextId : Option Nat) :
    H2Connection × Except RequestError Nat :=
  match nextId with
  | none =>
    ({ c with state := ConnectionState.ACTIVE },
      Except.error RequestError.NoAvailableStreamIDError)
  | some sid =>
    (registerStream { c with state := ConnectionState.ACTIVE } sid, Except.ok sid)

/-- The `is_closed` property, identical in `_sync/http2.py` lines 161-163
and `_async/http2.py` lines 122-124: `return False`. -/
def is_closed (_ : H2Connection) : Bool :=
  false

/-- The operations of the engine that run against a live connection's
registries.  The send-side operations (`send_headers`, `send_data`,
`end_stream`, `acknowledge_received_data`) touch only the codec and the
socket, which live outside `H2Connection`, so they do not appear here. -/
inductive EngineOp
  | register (sid : Nat)
  | close (sid : Nat)
  | deliver (e : H2Event)
  | markReady

def applyOp (c : H2Connection) : EngineOp → H2Connection
  | EngineOp.register sid => registerStream c sid
  | EngineOp.close sid => close_stream c sid
  | EngineOp.deliver e => deliverEvent c e
  | EngineOp.markReady => mark_as_ready c

def applyOps (c : H2Connection) : List EngineOp → H2Connection
  | [] => c
  | op :: ops => applyOps (applyOp c op) ops

/-- The invariant `keys(streams) == keys(events)` (key lists, since Python
dicts preserve insertion order). -/
def keysEq (c : H2Connection) : Prop :=
  c.streams.map Prod.fst = c.events.map Prod.fst

/-! ## Response tuple and reason phrase -/

/-- Python's `http.HTTPStatus` table: the standard reason phrase of each
known status code (stdlib, consumed by `get_reason_phrase`). -/
def httpStatusPhrase : Nat → Option String
  | 100 => some "Continue"
  | 101 => some "Switching Protocols"
  | 102 => some "Processing"
  | 200 => some "OK"
  | 201 => some "Created"
  | 202 => some "Accepted"
  | 203 => some "Non-Authoritative Information"
  | 204 => some "No Content"
  | 205 => some "Reset Content"
  | 206 => some "Partial Content"
  | 207 => some "Multi-Status"
  | 208 => some "Already Reported"
  | 226 => some "IM Used"
  | 300 => some "Multiple Choices"
  | 301 => some "Moved Permanently"
  | 302 => some "Found"
  | 303 => some "See Other"
  | 304 => some "Not Modified"
  | 305 => some "Use Proxy"
  | 307 => some "Temporary Redirect"
  | 308 => some "Permanent Redirect"
  | 400 => some "Bad Request"
  | 401 => some "Unauthorized"
  | 402 => some "Payment Required"
  | 403 => some "Forbidden"
  | 404 => some "Not Found"
  | 405 => some "Method Not Allowed"
  | 406 => some "Not Acceptable"
  | 407 => some "Proxy Authentication Required"
  | 408 => some "Request Timeout"
  | 409 => some "Conflict"
  | 410 => some "Gone"
  | 411 => some "Length Required"
  | 412 => some "Precondition Failed"
  | 413 => some "Request Entity Too Large"
  | 414 => some "Request-URI Too Long"
  | 415 => some "Unsupported Media Type"
  | 416 => some "Requested Range Not Satisfiable"
  | 417 => some "Expectation Failed"
  | 421 => some "Misdirected Request"
  | 422 => some "Unprocessable Entity"
  | 423 => some "Locked"
  | 424 => some "Failed Dependency"
  | 426 => some "Upgrade Required"
  | 428 => some "Precondition Required"
  | 429 => some "Too Many Requests"
  | 431 => some "Request Header Fields Too Large"
  | 451 => some "Unavailable For Legal Reasons"
  | 500 => some "Internal Server Error"
  | 501 => some "Not Implemented"
  | 502 => some "Bad Gateway"
  | 503 => some "Service Unavailable"
  | 504 => some "Gateway Timeout"
  | 505 => some "HTTP Version Not Supported"
  | 506 => some "Variant Also Negotiates"
  | 507 => some "Insufficient Storage"
  | 508 => some "Loop Detected"
  | 510 => some "Not Extended"
  | 511 => some "Network Authentication Required"
  | _ => none

/-- `get_reason_phrase` (`_sync/http2.py` lines 30-34): the phrase of a
known code; the `ValueError` branch of an unknown code yields `b""`. -/
def get_reason_phrase (status : Nat) : String :=
  match httpStatusPhrase status with
  | some p => p
  | none => ""

/-- The tuple `SyncHTTP2Stream.request` returns (lines 296-302), with the
lazy body stream elided: `(b"HTTP/2", status_code,
get_reason_phrase(status_code), headers)`. -/
def syncStreamResponse (status : Nat) (headers : List (String × String)) :
    String × Nat × String × List (String × String) :=
  ("HTTP/2", status, get_reason_phrase status, headers)

/-- The tuple `AsyncHTTP2Stream.request` returns (lines 263-269), with the
lazy body stream elided: `(b"HTTP/2", status_code, b"", headers)` — the
reason field is the literal empty bytes. -/
def asyncStreamResponse (status : Nat) (headers : List (String × String)) :
    String × Nat × String × List (String × String) :=
  ("HTTP/2", status, "", headers)

/-! ## Proxy tunnel (`AsyncHTTPProxy._tunnel_request`, lines 112-176) -/

/-- An origin triple (scheme, host, port). -/
abbrev Origin := String × String × Nat

/-- The `self.connections` mapping of the pool: origin → set of connection
identities (the Python `set` is modelled as a duplicate-free list). -/
abbrev Pool := List (Origin × List Nat)

/-- `self.connections[origin]`, defaulting to the empty set. -/
def poolGet (p : Pool) (o : Origin) : List Nat :=
  match assocLookup p o with
  | some l => l
  | none => []

/-- `self.connections.setdefault(origin, set());
self.connections[origin].add(connection)` (lines 131-133). -/
def poolAdd (p : Pool) (o : Origin) (conn : Nat) : Pool :=
  assocSet p o (poolGet p o ++ [conn])

/-- Lines 155-158: `self.connections[connection.origin].remove(connection);
if not self.connections[connection.origin]:
del self.connections[connection.origin]`. -/
def poolDrop (p : Pool) (o : Origin) (conn : Nat) : Pool :=
  let remaining := (poolGet p o).erase conn
  if remaining = [] then assocDelete p o else assocSet p o remaining

/-- `b"".join(chunks)` with the stream closed afterwards: what awaiting
`read_body(stream)` (lines 16-20) computes. -/
def read_body (stream : List (List Nat)) : List Nat :=
  stream.flatten

/-- The externally visible steps of `_tunnel_request`, in program order. -/
inductive TunnelEffect
  | connectRequest
  | drainBody
  | removeFromPool
  | startTls
  | userRequest
  deriving DecidableEq, Repr

/-- Result of `_tunnel_request`: the final pool, `some msg` when
`ProxyError(msg)` is raised, and the ordered effects that ran. -/
structure TunnelOutcome where
  pool : Pool
  proxyError : Option String
  trace : List TunnelEffect
  deriving DecidableEq, Repr

/-- `AsyncHTTPProxy._tunnel_request` (lines 112-176).  `pooled` is the
result of the external `_get_connection_from_pool(origin)` call
(`connection_pool.py` is outside these sources); when it is `none` the
dispatcher creates the connection `newConn`, registers it, and issues the
CONNECT request, whose response carries `status` and `reason`.  The
`read_body(proxy_stream)` call on line 150 creates a coroutine that is
never awaited, so the response body is not drained and no `drainBody`
effect occurs.  `b"%d %s" % (status, reason)` is the ProxyError message. -/
def async_tunnel_request (pool : Pool) (origin : Origin) (pooled : Option Nat)
    (newConn : Nat) (status : Nat) (reason : String) : TunnelOutcome :=
  match pooled with
  | some _ =>
    { pool := pool, proxyError := none, trace := [TunnelEffect.userRequest] }
  | none =>
    let pool1 := poolAdd pool origin newConn
    if status < 200 ∨ 299 < status then
      { pool := poolDrop pool1 origin newConn
        proxyError := some (toString status ++ " " ++ reason)
        trace := [TunnelEffect.connectRequest, TunnelEffect.removeFromPool] }
    else
      { pool := pool1
        proxyError := none
        trace :=
          [TunnelEffect.connectRequest, TunnelEffect.startTls,
            TunnelEffect.userRequest] }

theorem wait_flow_spec (s : H2FlowState) (env : List H2FlowState)
    (f : Nat) (s1 : H2FlowState) (env1 : List H2FlowState)
    (h : wait_for_outgoing_flow s env = some (f, s1, env1)) :
    f = min s1.localFlow s1.maxFrame ∧ 0 < f ∧
      ∃ zeros, s :: env = zeros ++ s1 :: env1 ∧
        ∀ t ∈ zeros, flowOf t = 0 := by
  induction env generalizing s with
  | nil =>
    rw [wait_for_outgoing_flow] at h
    split at h
    next h0 =>
      simp only [Option.some.injEq, Prod.mk.injEq] at h
      obtain ⟨hf, hs, henv⟩ := h
      subst hf; subst hs; subst henv
      exact ⟨rfl, Nat.pos_of_ne_zero h0, [], by simp, by simp⟩
    next h0 => simp at h
  | cons s2 rest ih =>
    rw [wait_for_outgoing_flow] at h
    split at h
    next h0 =>
      simp only [Option.some.injEq, Prod.mk.injEq] at h
      obtain ⟨hf, hs, henv⟩ := h
      subst hf; subst hs; subst henv
      exact ⟨rfl, Nat.pos_of_ne_zero h0, [], by simp, by simp⟩
    next h0 =>
      obtain ⟨hf, hpos, zeros, hsplit, hzero⟩ := ih s2 h
      refine ⟨hf, hpos, s :: zeros, ?_, ?_⟩
      · simp [hsplit]
      · intro t ht
        rcases List.mem_cons.mp ht with h1 | h1
        · subst h1; exact not_not.mp h0
        · exact hzero t h1

theorem sendBodyChunks_bound (fuel : Nat) (data : List Nat)
    (s : H2FlowState) (env : List H2FlowState)
    (out : List (List Nat × H2FlowState)) (s2 : H2FlowState)
    (env2 : List H2FlowState)
    (h : sendBodyChunks fuel data s env = some (out, s2, env2)) :
    ∀ c st, (c, st) ∈ out → c.length ≤ min st.localFlow st.maxFrame := by
  induction fuel generalizing data s env out s2 env2 with
  | zero =>
    cases data with
    | nil =>
      simp only [sendBodyChunks, Option.some.injEq, Prod.mk.injEq] at h
      obtain ⟨ho, hs, he⟩ := h
      subst ho; intro c st hc; simp at hc
    | cons b bs => simp [sendBodyChunks] at h
  | succ n ih =>
    cases data with
    | nil =>
      simp only [sendBodyChunks, Option.some.injEq, Prod.mk.injEq] at h
      obtain ⟨ho, hs, he⟩ := h
      subst ho; intro c st hc; simp at hc
    | cons b bs =>
      rw [sendBodyChunks] at h
      split at h
      next => simp at h
      next maxFlow s1 env1 hw =>
        split at h
        next => simp at h
        next sent s3 env3 hrec =>
          simp only [Option.some.injEq, Prod.mk.injEq] at h
          obtain ⟨ho, hs, he⟩ := h
          subst ho
          intro c st hc
          rcases List.mem_cons.mp hc with h1 | h1
          · obtain ⟨hf, hpos, hloop⟩ := wait_flow_spec s env maxFlow s1 env1 hw
            have hc1 : c = (b :: bs).take (min (b :: bs).length maxFlow) :=
              congrArg Prod.fst h1
            have hst : st = s1 := congrArg Prod.snd h1
            subst hc1
            rw [hst, ← hf]
            simp only [List.length_take]
            omega
          · exact ih _ _ _ _ _ _ hrec c st h1

theorem send_body_bound (fuel : Nat) (bodyStream : List (List Nat))
    (s : H2FlowState) (env : List H2FlowState)
    (out : List (List Nat × H2FlowState)) (s2 : H2FlowState)
    (env2 : List H2FlowState)
    (h : send_body fuel bodyStream s env = some (out, s2, env2)) :
    ∀ c st, (c, st) ∈ out → c.length ≤ min st.localFlow st.maxFrame := by
  induction bodyStream generalizing s env out s2 env2 with
  | nil =>
    simp only [send_body, Option.some.injEq, Prod.mk.injEq] at h
    obtain ⟨ho, hs, he⟩ := h
    subst ho; intro c st hc; simp at hc
  | cons d ds ih =>
    rw [send_body] at h
    split at h
    next => simp at h
    next sent s1 env1 hchunks =>
      split at h
      next => simp at h
      next sent2 s3 env3 hrest =>
        simp only [Option.some.injEq, Prod.mk.injEq] at h
        obtain ⟨ho, hs, he⟩ := h
        subst ho
        intro c st hc
        rcases List.mem_append.mp hc with h1 | h1
        · exact sendBodyChunks_bound fuel d s env sent s1 env1 hchunks c st h1
        · exact ih _ _ _ _ _ hrest c st h1

/-! ## Association list lemmas -/

theorem assocLookup_isSome_iff {α β : Type} [DecidableEq α]
    (l : List (α × β)) (k : α) :
    (assocLookup l k).isSome ↔ k ∈ l.map Prod.fst := by
  induction l with
  | nil => simp [assocLookup]
  | cons kv rest ih =>
    obtain ⟨k1, v1⟩ := kv
    by_cases h : k1 = k
    · simp [assocLookup, h]
    · simp [assocLookup, h, ih, Ne.symm h]

theorem assocLookup_mapSet {α β : Type} [DecidableEq α]
    (l : List (α × β)) (k : α) (v : β) (h : (assocLookup l k).isSome) :
    assocLookup (l.map (fun kv => if kv.1 = k then (k, v) else kv)) k =
      some v := by
  induction l with
  | nil => simp [assocLookup] at h
  | cons kv rest ih =>
    obtain ⟨k1, v1⟩ := kv
    by_cases h1 : k1 = k
    · subst h1
      rw [List.map_cons]
      rw [show (if (k1, v1).1 = k1 then (k1, v) else (k1, v1)) = (k1, v) from
          if_pos rfl]
      rw [assocLookup, if_pos rfl]
    · rw [assocLookup, if_neg h1] at h
      simp only [List.map_cons]
      rw [if_neg h1, assocLookup, if_neg h1]
      exact ih h

theorem assocLookup_append {α β : Type} [DecidableEq α]
    (l : List (α × β)) (k : α) (v : β) (h : assocLookup l k = none) :
    assocLookup (l ++ [(k, v)]) k = some v := by
  induction l with
  | nil => simp [assocLookup]
  | cons kv rest ih =>
    obtain ⟨k1, v1⟩ := kv
    by_cases h1 : k1 = k
    · rw [assocLookup, if_pos h1] at h
      exact absurd h (by simp)
    · rw [assocLookup, if_neg h1] at h
      rw [List.cons_append, assocLookup, if_neg h1]
      exact ih h

theorem assocLookup_assocSet_self {α β : Type} [DecidableEq α]
    (l : List (α × β)) (k : α) (v : β) :
    assocLookup (assocSet l k v) k = some v := by
  unfold assocSet
  split
  next h => exact assocLookup_mapSet l k v h
  next h =>
    exact assocLookup_append l k v (Option.not_isSome_iff_eq_none.mp h)

theorem assocLookup_assocDelete {α β : Type} [DecidableEq α]
    (l : List (α × β)) (k : α) :
    assocLookup (assocDelete l k) k = none := by
  unfold assocDelete
  induction l with
  | nil => rfl
  | cons kv rest ih =>
    obtain ⟨k1, v1⟩ := kv
    by_cases h1 : k1 = k
    · simpa [List.filter_cons, h1] using ih
    · simpa [List.filter_cons, h1, assocLookup] using ih

theorem mapSet_keys {α β : Type} [DecidableEq α]
    (l : List (α × β)) (k : α) (v : β) :
    (l.map (fun kv => if kv.1 = k then (k, v) else kv)).map Prod.fst =
      l.map Prod.fst := by
  induction l with
  | nil => rfl
  | cons kv rest ih =>
    obtain ⟨k1, v1⟩ := kv
    by_cases h : k1 = k <;> simp [h, ih]

theorem assocSet_keys {α β : Type} [DecidableEq α]
    (l : List (α × β)) (k : α) (v : β) :
    (assocSet l k v).map Prod.fst =
      if k ∈ l.map Prod.fst then l.map Prod.fst
      else l.map Prod.fst ++ [k] := by
  unfold assocSet
  by_cases h : (assocLookup l k).isSome
  · rw [if_pos h, if_pos ((assocLookup_isSome_iff l k).mp h), mapSet_keys]
  · rw [if_neg h,
      if_neg (fun hm => h ((assocLookup_isSome_iff l k).mpr hm))]
    simp

theorem assocDelete_keys {α β : Type} [DecidableEq α]
    (l : List (α × β)) (k : α) :
    (assocDelete l k).map Prod.fst =
      (l.map Prod.fst).filter (fun x => !(x == k)) := by
  unfold assocDelete
  induction l with
  | nil => rfl
  | cons kv rest ih =>
    obtain ⟨k1, v1⟩ := kv
    by_cases h : k1 = k <;> simp [List.filter_cons, h, ih]

/-! ## Claim theorems -/

/-- C2: for every request, the header block handed to the connection is
exactly the four pseudo-headers `:method, :authority, :scheme, :path` in
fixed order — `:authority` being `host` when the port is the scheme's
default (http=80, https=443) and `host:port` otherwise — followed by the
user headers with lowercased names, minus `host` and `transfer-encoding`. -/
theorem pseudo_header_block (method scheme hostname : String) (port : Nat)
    (path : String) (headers : List (String × String)) :
    request_header_block method scheme hostname port path headers =
      spec_header_block method scheme hostname port path headers := by
  unfold request_header_block send_headers_block spec_header_block
    spec_authority lowered_headers
  by_cases hs : scheme = "http"
  · by_cases hp : port = 80 <;> simp [hs, hp]
  · by_cases hs2 : scheme = "https"
    · by_cases hp : port = 443 <;> simp [hs, hs2, hp]
    · simp [hs, hs2]

/-- C3: the proxy dispatcher takes the forward path exactly when
`proxy_mode = FORWARD_ONLY`, or `proxy_mode = DEFAULT` with an `http`
scheme; in every other case it takes the tunnel path. -/
theorem proxy_dispatch_rule (mode : ProxyMode) (scheme : String) :
    (proxy_request_path mode scheme = ProxyPath.forward ↔
      mode = ProxyMode.FORWARD_ONLY ∨
        (mode = ProxyMode.DEFAULT ∧ scheme = "http")) ∧
    (proxy_request_path mode scheme = ProxyPath.tunnel ↔
      ¬(mode = ProxyMode.FORWARD_ONLY ∨
        (mode = ProxyMode.DEFAULT ∧ scheme = "http"))) := by
  cases mode <;> by_cases hs : scheme = "http" <;>
    simp [proxy_request_path, hs]

/-! ## Registry key-set preservation -/

theorem registerStream_keysEq (c : H2Connection) (sid : Nat) (h : keysEq c) :
    keysEq (registerStream c sid) := by
  show (assocSet c.streams sid sid).map Prod.fst =
    (assocSet c.events sid []).map Prod.fst
  rw [assocSet_keys, assocSet_keys, h]

theorem close_stream_registries (c : H2Connection) (sid : Nat) :
    (close_stream c sid).streams = assocDelete c.streams sid ∧
      (close_stream c sid).events = assocDelete c.events sid := by
  unfold close_stream close_conn
  refine ⟨?_, ?_⟩ <;> (dsimp only; repeat' split) <;> rfl

theorem close_stream_keysEq (c : H2Connection) (sid : Nat) (h : keysEq c) :
    keysEq (close_stream c sid) := by
  obtain ⟨hstr, hev⟩ := close_stream_registries c sid
  unfold keysEq
  rw [hstr, hev, assocDelete_keys, assocDelete_keys, h]

theorem deliverEvent_keysEq (c : H2Connection) (e : H2Event) (h : keysEq c) :
    keysEq (deliverEvent c e) := by
  unfold deliverEvent
  split
  next fifo hl =>
    show c.streams.map Prod.fst =
      (assocSet c.events e.stream_id (fifo ++ [e])).map Prod.fst
    rw [assocSet_keys,
      if_pos ((assocLookup_isSome_iff c.events e.stream_id).mp
        (by rw [hl]; rfl))]
    exact h
  next hl => exact h

theorem mark_as_ready_keysEq (c : H2Connection) (h : keysEq c) :
    keysEq (mark_as_ready c) := by
  unfold mark_as_ready
  split <;> exact h

theorem applyOp_keysEq (c : H2Connection) (op : EngineOp) (h : keysEq c) :
    keysEq (applyOp c op) := by
  cases op with
  | register sid => exact registerStream_keysEq c sid h
  | close sid => exact close_stream_keysEq c sid h
  | deliver e => exact deliverEvent_keysEq c e h
  | markReady => exact mark_as_ready_keysEq c h

theorem applyOps_keysEq (c : H2Connection) (ops : List EngineOp)
    (h : keysEq c) : keysEq (applyOps c ops) := by
  induction ops generalizing c with
  | nil => exact h
  | cons op ops ih => exact ih (applyOp c op) (applyOp_keysEq c op h)

/-- C1: every DATA chunk handed to `send_data` by `send_body` has length at
most `min(local_flow_window, max_outbound_frame_size)` at the moment it is
sent; `wait_for_outgoing_flow` returns exactly that minimum, loops over
`receive_events` while it is zero, and its return value is strictly
positive. -/
theorem flow_control_chunking :
    (∀ s env f s1 env1,
      wait_for_outgoing_flow s env = some (f, s1, env1) →
        f = min s1.localFlow s1.maxFrame ∧ 0 < f ∧
          ∃ zeros, s :: env = zeros ++ s1 :: env1 ∧
            ∀ t ∈ zeros, flowOf t = 0) ∧
    (∀ fuel bodyStream s env out s2 env2,
      send_body fuel bodyStream s env = some (out, s2, env2) →
        ∀ c st, (c, st) ∈ out → c.length ≤ min st.localFlow st.maxFrame) :=
  ⟨wait_flow_spec, send_body_bound⟩

/-- Witness for `flow_control_chunking`: a stream whose window starts at 0
and is refilled to 100 by one `receive_events` round, and a 2-byte body
sent against a window of 2. -/
theorem flow_control_chunking_witness :
    ((100 : Nat) = min (100 : Nat) 16384 ∧ 0 < (100 : Nat) ∧
      ∃ zeros,
        (⟨0, 16384⟩ : H2FlowState) :: [⟨100, 16384⟩] =
            zeros ++ (⟨100, 16384⟩ : H2FlowState) :: [] ∧
          ∀ t ∈ zeros, flowOf t = 0) ∧
    ([5, 6] : List Nat).length ≤ min 2 16384 :=
  ⟨flow_control_chunking.1 ⟨0, 16384⟩ [⟨100, 16384⟩] 100 ⟨100, 16384⟩ []
      (by decide),
    flow_control_chunking.2 2 [[5, 6]] ⟨2, 16384⟩ []
      [([5, 6], ⟨2, 16384⟩)] ⟨0, 16384⟩ [] (by decide) [5, 6] ⟨2, 16384⟩
      (by decide)⟩

/-- C5: `receive_events` on a zero-byte read.  The code has no check on the
amount read: it feeds the empty input to the codec, and since no HTTP/2
frame fits in zero bytes the codec yields no events (`hfeed`), so the call
returns normally with no `ProtocolError` — the connection-drop error the
spec requires never arises, and callers looping on `receive_events` spin
forever instead. -/
theorem zero_byte_read_no_error (feed : List Nat → List H2Event)
    (c : H2Connection) (hfeed : feed [] = []) :
    receive_events feed c [] = (c, none) := by
  unfold receive_events
  rw [hfeed]
  rfl

/-- Witness for `zero_byte_read_no_error`. -/
theorem zero_byte_read_no_error_witness :
    receive_events (fun _ => []) initialConnection [] =
      (initialConnection, none) :=
  zero_byte_read_no_error (fun _ => []) initialConnection rfl

/-- C6: `keys(streams) == keys(events)` holds at all times: it holds in the
initial state and every engine operation preserves it — `request` creates
both entries together, `close_stream` deletes both together, event
delivery touches only an existing FIFO's value. -/
theorem streams_events_keys (ops : List EngineOp) :
    keysEq (applyOps initialConnection ops) ∧
      (∀ c op, keysEq c → keysEq (applyOp c op)) :=
  ⟨applyOps_keysEq initialConnection ops rfl, applyOp_keysEq⟩

/-- Witness for `streams_events_keys`, registering then closing stream 1
and delivering an event in between. -/
theorem streams_events_keys_witness :
    keysEq (applyOps initialConnection
      [EngineOp.register 1, EngineOp.deliver ⟨1, none⟩, EngineOp.close 1]) ∧
      keysEq (applyOp initialConnection (EngineOp.register 1)) :=
  ⟨(streams_events_keys
      [EngineOp.register 1, EngineOp.deliver ⟨1, none⟩, EngineOp.close 1]).1,
    (streams_events_keys []).2 initialConnection (EngineOp.register 1) rfl⟩

/-- C7 counterexample: on the async variant a refused stream id leaves the
state ACTIVE and propagates the codec's `NoAvailableStreamIDError` — the
engine does not transition to FULL and does not raise
`NewConnectionRequired`, so the claim fails on `_async/http2.py`. -/
theorem async_no_stream_id_counterexample :
    (async_request_allocate initialConnection none).1.state =
        ConnectionState.ACTIVE ∧
      (async_request_allocate initialConnection none).1.state ≠
        ConnectionState.FULL ∧
      (async_request_allocate initialConnection none).2 =
        Except.error RequestError.NoAvailableStreamIDError ∧
      (async_request_allocate initialConnection none).2 ≠
        Except.error RequestError.NewConnectionRequired := by
  refine ⟨rfl, ?_, rfl, ?_⟩
  · decide
  · simp [async_request_allocate]

/-- C7 amended: when the codec cannot allocate a new stream id, the sync
variant's `request` moves the connection to FULL and raises
`NewConnectionRequired` without touching the registries, while the async
variant's `request` lets `NoAvailableStreamIDError` propagate: its state
is left ACTIVE (never FULL), no `NewConnectionRequired` is raised, and
the registries are equally untouched. -/
theorem no_stream_id_by_variant (c : H2Connection) (nextId : Option Nat)
    (h : nextId = none) :
    request_allocate c nextId =
        ({ c with state := ConnectionState.FULL },
          Except.error RequestError.NewConnectionRequired) ∧
      (request_allocate c nextId).1.streams = c.streams ∧
      (request_allocate c nextId).1.events = c.events ∧
      async_request_allocate c nextId =
        ({ c with state := ConnectionState.ACTIVE },
          Except.error RequestError.NoAvailableStreamIDError) ∧
      (async_request_allocate c nextId).1.state ≠ ConnectionState.FULL ∧
      (async_request_allocate c nextId).2 ≠
        Except.error RequestError.NewConnectionRequired ∧
      (async_request_allocate c nextId).1.streams = c.streams ∧
      (async_request_allocate c nextId).1.events = c.events := by
  subst h
  refine ⟨rfl, rfl, rfl, rfl, ?_, ?_, rfl, rfl⟩
  · intro hc
    exact ConnectionState.noConfusion hc
  · simp [async_request_allocate]

/-- Witness for `no_stream_id_by_variant`. -/
theorem no_stream_id_by_variant_witness :
    request_allocate initialConnection none =
      ({ initialConnection with state := ConnectionState.FULL },
        Except.error RequestError.NewConnectionRequired) :=
  (no_stream_id_by_variant initialConnection none rfl).1

/-! ## Pool lemmas for the tunnel path -/

theorem poolGet_assocSet (p : Pool) (o : Origin) (v : List Nat) :
    poolGet (assocSet p o v) o = v := by
  unfold poolGet
  rw [assocLookup_assocSet_self]

theorem poolGet_assocDelete (p : Pool) (o : Origin) :
    poolGet (assocDelete p o) o = [] := by
  unfold poolGet
  rw [assocLookup_assocDelete]

theorem poolGet_poolAdd (p : Pool) (o : Origin) (conn : Nat) :
    poolGet (poolAdd p o conn) o = poolGet p o ++ [conn] := by
  unfold poolAdd
  rw [poolGet_assocSet]

theorem async_tunnel_request_fail (pool : Pool) (origin : Origin)
    (newConn : Nat) (status : Nat) (reason : String)
    (hstatus : status < 200 ∨ 299 < status) :
    async_tunnel_request pool origin none newConn status reason =
      { pool := poolDrop (poolAdd pool origin newConn) origin newConn
        proxyError := some (toString status ++ " " ++ reason)
        trace := [TunnelEffect.connectRequest, TunnelEffect.removeFromPool] } := by
  unfold async_tunnel_request
  dsimp only
  rw [if_pos hstatus]

/-- C4: a CONNECT response with status outside [200, 299] on a newly
created connection removes that connection from the pool, deletes the
origin's entry when it becomes empty, raises
`ProxyError("{status} {reason}")`, and performs no TLS upgrade and no user
request. -/
theorem tunnel_failure (pool : Pool) (origin : Origin) (newConn : Nat)
    (status : Nat) (reason : String)
    (hfresh : newConn ∉ poolGet pool origin)
    (hstatus : status < 200 ∨ 299 < status) :
    (async_tunnel_request pool origin none newConn status reason).proxyError =
        some (toString status ++ " " ++ reason) ∧
      poolGet (async_tunnel_request pool origin none newConn status
          reason).pool origin = poolGet pool origin ∧
      newConn ∉ poolGet (async_tunnel_request pool origin none newConn status
          reason).pool origin ∧
      (poolGet pool origin = [] →
        assocLookup (async_tunnel_request pool origin none newConn status
          reason).pool origin = none) ∧
      TunnelEffect.startTls ∉
        (async_tunnel_request pool origin none newConn status reason).trace ∧
      TunnelEffect.userRequest ∉
        (async_tunnel_request pool origin none newConn status reason).trace := by
  rw [async_tunnel_request_fail pool origin newConn status reason hstatus]
  have herase : (poolGet pool origin ++ [newConn]).erase newConn =
      poolGet pool origin := by
    rw [List.erase_append_right _ hfresh]
    simp
  have hpd : poolDrop (poolAdd pool origin newConn) origin newConn =
      if poolGet pool origin = [] then
        assocDelete (poolAdd pool origin newConn) origin
      else assocSet (poolAdd pool origin newConn) origin
        (poolGet pool origin) := by
    unfold poolDrop
    rw [poolGet_poolAdd, herase]
  dsimp only
  rw [hpd]
  by_cases hnil : poolGet pool origin = []
  · rw [if_pos hnil]
    refine ⟨rfl, ?_, ?_, fun _ => assocLookup_assocDelete _ _, ?_, ?_⟩
    · rw [poolGet_assocDelete, hnil]
    · rw [poolGet_assocDelete]
      simp
    · decide
    · decide
  · rw [if_neg hnil]
    refine ⟨rfl, ?_, ?_, fun hn => absurd hn hnil, ?_, ?_⟩
    · rw [poolGet_assocSet]
    · rw [poolGet_assocSet]
      exact hfresh
    · decide
    · decide

/-- Witness for `tunnel_failure`: a 407 CONNECT response on an empty pool
yields `ProxyError("407 Proxy Authentication Required")`. -/
theorem tunnel_failure_witness :
    (async_tunnel_request [] ("https", "example.org", 443) none 1 407
        "Proxy Authentication Required").proxyError =
      some "407 Proxy Authentication Required" :=
  (tunnel_failure [] ("https", "example.org", 443) 1 407
    "Proxy Authentication Required" (by simp [poolGet, assocLookup])
    (by decide)).1

/-- C8 counterexample: the async variant's `request` returns empty reason
bytes even for the known status 204, whose standard text is
`b"No Content"`, so the claim fails on `_async/http2.py`. -/
theorem async_reason_phrase_counterexample :
    (asyncStreamResponse 204 []).2.2.1 = "" ∧
      get_reason_phrase 204 = "No Content" ∧
      (asyncStreamResponse 204 []).2.2.1 ≠ get_reason_phrase 204 := by
  refine ⟨rfl, rfl, ?_⟩
  decide

/-- C8 amended: the sync variant's tuple carries
`get_reason_phrase(status)` — the standard text when the code is known and
empty bytes otherwise (204 gives `b"No Content"`, unknown codes give
`b""`) — while the async variant's tuple always carries empty bytes. -/
theorem reason_phrase_by_variant (status : Nat)
    (headers : List (String × String)) :
    (syncStreamResponse status headers).2.2.1 = get_reason_phrase status ∧
      (asyncStreamResponse status headers).2.2.1 = "" ∧
      get_reason_phrase 204 = "No Content" ∧
      get_reason_phrase 599 = "" :=
  ⟨rfl, rfl, rfl, rfl⟩

/-- C9: on the fresh-connection tunnel path the proxy response body is
never drained — `read_body(proxy_stream)` on line 150 builds a coroutine
that is not awaited — so no `drainBody` step occurs before the status
check or the user request, contradicting the spec's "fully drain the
proxy response body". -/
theorem tunnel_body_never_drained (pool : Pool) (origin : Origin)
    (newConn : Nat) (status : Nat) (reason : String) :
    TunnelEffect.drainBody ∉
      (async_tunnel_request pool origin none newConn status reason).trace := by
  unfold async_tunnel_request
  dsimp only
  split <;> simp

/-- C10: `is_closed` returns `False` unconditionally on both variants,
also after `close()` has moved the connection's state to CLOSED, so
closure is never observable through it. -/
theorem is_closed_always_false (c : H2Connection) :
    is_closed c = false ∧ is_closed (close_conn c) = false ∧
      (close_conn c).state = ConnectionState.CLOSED := by
  refine ⟨rfl, rfl, ?_⟩
  unfold close_conn
  split
  · rfl
  · next h => exact not_not.mp h

end Httpcore
